import Mathlib

/-!
Verification of the HemoDownloader packaging descriptor (setup.py).

The repository consists of a single installation script: it takes the
setup entry point from setuptools, falling back to distutils.core on any
failure of that preferred import, and calls it with statically declared
package metadata and a list of three requirement strings. This file
embeds the descriptor, the fallback selection, and the version-string
formats used by the declared dependencies, and proves the specified
properties about them.
-/

namespace HemoDownloader

/-- Package metadata fields passed to the setup call in setup.py
(name, version, description, author, author_email). -/
structure PackageMetadata where
  name : String
  version : String
  description : String
  author : String
  author_email : String
  deriving DecidableEq, Repr

/-- Full argument record of the setup call: metadata plus the
install_requires list of requirement strings. -/
structure SetupArgs where
  metadata : PackageMetadata
  install_requires : List String
  deriving DecidableEq, Repr

/-- The two installer tools the script can import the setup entry point
from: setuptools (preferred) or distutils.core (fallback). -/
inductive Tool where
  | setuptools
  | distutils
  deriving DecidableEq, Repr

/-- Kinds of exception an import statement can raise: the usual
ImportError when the module is absent, or any other exception. -/
inductive ExcKind where
  | importError
  | other (msg : String)
  deriving DecidableEq, Repr

/-- Outcome of attempting the preferred import, as Except: ok when the
setuptools import succeeds, error with the raised exception otherwise. -/
def ImportOutcome : Type := Except ExcKind Unit

/-- Tool selection embedded from lines 19-22 of setup.py: the try block
uses setuptools, and the bare except clause (no exception class named)
makes any raised exception select distutils.core. -/
def selectTool : Except ExcKind Unit → Tool
  | Except.ok _ => Tool.setuptools
  | Except.error _ => Tool.distutils

/-- The literal arguments of the setup call in setup.py, lines 24-30. -/
def hemoSetupArgs : SetupArgs :=
  { metadata :=
      { name := "HemoDownloader.pyw"
        version := "1.2"
        description := "A GUI utility for downloading data from HemoCue® HbA1c devices"
        author := "Martin Rune Hassan Hansen"
        author_email := "martinrunehassanhansen@ph.au.dk" }
    install_requires := ["pyserial>=3.4", "xlsxwriter>=1.1.8", "xlwt>=1.3.0"] }

/-- The distribution record a setup call produces: the metadata and the
declared requirement strings. Both setup entry points record the keyword
arguments they are given into the distribution object (distutils stores
install_requires as a plain attribute after a warning), so the record is
determined by the arguments, not by the tool. -/
structure Distribution where
  metadata : PackageMetadata
  requires : List String
  deriving DecidableEq, Repr

/-- Running the selected setup entry point on the argument record: both
tools record the passed metadata and requirement list. -/
def runSetup (_t : Tool) (a : SetupArgs) : Distribution :=
  { metadata := a.metadata, requires := a.install_requires }

/-- Evaluating the module: attempt the preferred import, select the tool
accordingly, and call setup with the literal arguments. -/
def evalDescriptor (avail : Except ExcKind Unit) : Distribution :=
  runSetup (selectTool avail) hemoSetupArgs

/-- External state visible to an evaluation of the module: whether the
preferred import succeeds, plus abstract unrelated external state that the
module never touches. -/
structure World where
  avail : Except ExcKind Unit
  external : List String

/-- Evaluating the module in a world: the result is the distribution
obtained from the available tool, and the world is passed through. -/
def evalInWorld (w : World) : Distribution × World :=
  (evalDescriptor w.avail, w)

/-- Version-constraint operators of the requirement-string format used by
the dependency declarations in install_requires. -/
inductive ConstraintOp where
  | ge
  | eq
  | le
  deriving DecidableEq, Repr

/-- A parsed dependency declaration: package name, constraint operator,
and the version string on the right of the operator. -/
structure Requirement where
  name : String
  op : ConstraintOp
  version : String
  deriving DecidableEq, Repr

/-- Scanning a requirement for its first two-character constraint
operator, returning the name part, the operator and the version part. -/
def splitReq : List Char → List Char → Option (List Char × ConstraintOp × List Char)
  | [], _ => none
  | '>' :: '=' :: rest, acc => some (acc.reverse, ConstraintOp.ge, rest)
  | '=' :: '=' :: rest, acc => some (acc.reverse, ConstraintOp.eq, rest)
  | '<' :: '=' :: rest, acc => some (acc.reverse, ConstraintOp.le, rest)
  | c :: rest, acc => splitReq rest (c :: acc)

/-- Parsing a requirement string of the form used in install_requires:
a nonempty package name followed by a constraint operator and a version. -/
def parseRequirement (s : String) : Option Requirement :=
  match splitReq s.toList [] with
  | some (n, o, v) =>
    if n.isEmpty || v.isEmpty then none
    else some { name := String.mk n, op := o, version := String.mk v }
  | none => none

/-- Splitting a character list at every dot. -/
def splitDots : List Char → List Char → List (List Char)
  | [], acc => [acc.reverse]
  | '.' :: rest, acc => acc.reverse :: splitDots rest []
  | c :: rest, acc => splitDots rest (c :: acc)

/-- Numeric value of a decimal digit character, none otherwise. -/
def digitVal (c : Char) : Option Nat :=
  if c.isDigit then some (c.toNat - 48) else none

/-- Reading a decimal numeral from characters, accumulator style. -/
def parseNatAux : List Char → Nat → Option Nat
  | [], n => some n
  | c :: cs, n =>
    match digitVal c with
    | some d => parseNatAux cs (n * 10 + d)
    | none => none

/-- Parsing a nonempty all-digit character list as a natural number. -/
def parseNatL (l : List Char) : Option Nat :=
  if l.isEmpty then none else parseNatAux l 0

/-- Parsing a version string as dot-separated numeric components. -/
def parseVersion (s : String) : Option (List Nat) :=
  (splitDots s.toList []).mapM parseNatL

/-- True when every component of a version is zero. -/
def allZero : List Nat → Bool
  | [] => true
  | x :: xs => x == 0 && allZero xs

/-- Standard precedence comparison of numeric versions: componentwise,
with missing trailing components counting as zero. -/
def versionCmp : List Nat → List Nat → Ordering
  | [], ys => if allZero ys then Ordering.eq else Ordering.lt
  | x :: xs, [] => if allZero (x :: xs) then Ordering.eq else Ordering.gt
  | x :: xs, y :: ys =>
    match compare x y with
    | Ordering.eq => versionCmp xs ys
    | o => o

/-- True when a requirement string parses and its version side parses as a
nonempty list of numeric components. -/
def minVersionNumeric (s : String) : Bool :=
  match parseRequirement s with
  | some r =>
    match parseVersion r.version with
    | some v => !v.isEmpty
    | none => false
  | none => false

/-- True when a requirement string parses and its version side parses as
exactly three numeric components. -/
def minVersionThreeComponents (s : String) : Bool :=
  match parseRequirement s with
  | some r =>
    match parseVersion r.version with
    | some v => v.length == 3
    | none => false
  | none => false

/-- C1 counterexample: the metadata record produced by evaluating the
descriptor does not have name "HemoDownloader": setup.py declares
name="HemoDownloader.pyw", so the claimed identity fails as stated. -/
theorem C1_counterexample :
    ¬ ((evalDescriptor (Except.ok ())).metadata.name = "HemoDownloader" ∧
       (evalDescriptor (Except.ok ())).metadata.version = "1.2") := by
  decide

/-- C1 (amended): the package metadata record produced by evaluating the
descriptor has name exactly "HemoDownloader.pyw" and version exactly
"1.2". -/
theorem C1_package_identity :
    (evalDescriptor (Except.ok ())).metadata.name = "HemoDownloader.pyw" ∧
    (evalDescriptor (Except.ok ())).metadata.version = "1.2" := by
  decide

/-- C2: evaluating the descriptor yields exactly three dependency
declarations, which parse as the serial-port library pyserial with floor
3.4, the primary spreadsheet library xlsxwriter with floor 1.1.8, and the
legacy spreadsheet library xlwt with floor 1.3.0. -/
theorem C2_three_dependencies :
    (evalDescriptor (Except.ok ())).requires.length = 3 ∧
    (evalDescriptor (Except.ok ())).requires.mapM parseRequirement =
      some [{ name := "pyserial", op := ConstraintOp.ge, version := "3.4" },
            { name := "xlsxwriter", op := ConstraintOp.ge, version := "1.1.8" },
            { name := "xlwt", op := ConstraintOp.ge, version := "1.3.0" }] ∧
    parseVersion "3.4" = some [3, 4] ∧
    parseVersion "1.1.8" = some [1, 1, 8] ∧
    parseVersion "1.3.0" = some [1, 3, 0] := by
  decide

/-- C3 counterexample: not every declared minimum version has three
numeric components: the requirement "pyserial>=3.4" is declared, and its
version "3.4" parses as the two components [3, 4]. -/
theorem C3_counterexample :
    hemoSetupArgs.install_requires.all minVersionThreeComponents = false ∧
    "pyserial>=3.4" ∈ hemoSetupArgs.install_requires ∧
    (parseRequirement "pyserial>=3.4").map Requirement.version = some "3.4" ∧
    parseVersion "3.4" = some [3, 4] := by
  decide

/-- C3 (amended): every declared minimum-version string parses as a valid
version identifier of dot-separated numeric components, comparable under
standard precedence rules; the serial-port floor has two components and
the spreadsheet floors three. -/
theorem C3_versions_numeric :
    hemoSetupArgs.install_requires.all minVersionNumeric = true ∧
    (hemoSetupArgs.install_requires.mapM parseRequirement).map
        (List.map (fun r => parseVersion r.version)) =
      some [some [3, 4], some [1, 1, 8], some [1, 3, 0]] ∧
    versionCmp [3, 4] [3, 4, 0] = Ordering.eq ∧
    versionCmp [1, 1, 8] [1, 3, 0] = Ordering.lt := by
  decide

/-- C4: when the preferred setuptools import fails, evaluation selects the
fallback distutils tool and still succeeds, producing a distribution
identical to the one produced when setuptools is present. -/
theorem C4_fallback_same_output :
    selectTool (Except.error ExcKind.importError) = Tool.distutils ∧
    evalDescriptor (Except.error ExcKind.importError) =
      evalDescriptor (Except.ok ()) := by
  decide

/-- C5: every declared dependency uses the greater-or-equal operator as a
minimum-version floor, and none pins an exact version. -/
theorem C5_floor_not_pin :
    ((evalDescriptor (Except.ok ())).requires.mapM parseRequirement).map
        (fun rs => rs.all (fun r => r.op == ConstraintOp.ge)) = some true ∧
    ((evalDescriptor (Except.ok ())).requires.mapM parseRequirement).map
        (fun rs => rs.any (fun r => r.op == ConstraintOp.eq)) = some false := by
  decide

/-- C6: in the metadata record produced by evaluating the descriptor, the
name, version, description, author and author_email fields are all
non-empty strings. -/
theorem C6_metadata_nonempty :
    (evalDescriptor (Except.ok ())).metadata.name ≠ "" ∧
    (evalDescriptor (Except.ok ())).metadata.version ≠ "" ∧
    (evalDescriptor (Except.ok ())).metadata.description ≠ "" ∧
    (evalDescriptor (Except.ok ())).metadata.author ≠ "" ∧
    (evalDescriptor (Except.ok ())).metadata.author_email ≠ "" := by
  decide

/-- C7: evaluating the descriptor is idempotent: evaluating it again in
the world left by a first evaluation yields the same distribution, and the
world is unchanged, so no hidden mutable state influences the result. -/
theorem C7_idempotent (w : World) :
    (evalInWorld (evalInWorld w).2).1 = (evalInWorld w).1 ∧
    (evalInWorld (evalInWorld w).2).2 = w :=
  ⟨rfl, rfl⟩

/-- C8: the package names of the parsed dependency declarations are
pairwise distinct. -/
theorem C8_names_distinct :
    ((evalDescriptor (Except.ok ())).requires.mapM parseRequirement).map
        (List.map Requirement.name) =
      some ["pyserial", "xlsxwriter", "xlwt"] ∧
    (["pyserial", "xlsxwriter", "xlwt"] : List String).Nodup := by
  refine ⟨by decide, by decide⟩

/-- C9: evaluating the descriptor has no side effects: the world is passed
through unchanged, and the resulting distribution does not depend on the
observed tool availability — it is determined by the statically declared
values alone. -/
theorem C9_no_side_effects (a b : Except ExcKind Unit) (w : World) :
    (evalInWorld w).2 = w ∧
    (evalInWorld w).1 = evalDescriptor w.avail ∧
    evalDescriptor a = evalDescriptor b :=
  ⟨rfl, rfl, rfl⟩

/-- C10: the fallback to distutils is triggered by any exception raised by
the preferred import, not only by an ImportError, because the except
clause in setup.py names no exception class. -/
theorem C10_catch_all (e : ExcKind) :
    selectTool (Except.error e) = Tool.distutils ∧
    selectTool (Except.error (ExcKind.other "KeyboardInterrupt")) =
      Tool.distutils :=
  ⟨rfl, rfl⟩

end HemoDownloader
